import Mathlib

/-!
# Dandelion dataflow-graph nodes and edges

A shallow embedding of `include/Dandelion/Node.h` and `include/Dandelion/Edge.h`.

* A C++ pointer is a `Ptr`: `Ptr.null` is `nullptr`, `Ptr.addr a` the object at address `a`.
* A `std::list<T *>` is a `List Ptr`; `size()` is `List.length`.
* A `uint32_t` is a `Nat`; a conversion to `uint32_t` is written `% 2 ^ 32`.
* A member that a constructor leaves uninitialised has type `Option _`; `none` is the
  indeterminate value.
* An enumeration is an inductive type; `toNat` gives the enumerator's integer value.
  `InstType` is the enumeration of the build without `TAPIR` (the header does not define it).
* A class is a structure, a derived class `extends` its base; `Object` is the sum of the
  classes (the dynamic type of what a `Node *` points at).
-/

namespace dandelion

/-- A pointer value: null, or the address of an object. -/
inductive Ptr where
  | null
  | addr (a : Nat)
  deriving DecidableEq, Repr

/-- The enum `PrintType`. -/
inductive PrintType where
  | Scala
  | Dot
  | Json
  deriving DecidableEq, Repr

/-- The struct `DataPort`. -/
structure DataPort where
  data_input_port : List Ptr
  data_output_port : List Ptr
  deriving DecidableEq, Repr

/-- The struct `ControlPort`. -/
structure ControlPort where
  control_input_port : List Ptr
  control_output_port : List Ptr
  deriving DecidableEq, Repr

/-- The struct `DependencyPort`. -/
structure DependencyPort where
  depen_input_port : List Ptr
  depen_output_port : List Ptr
  deriving DecidableEq, Repr

/-- The struct `MemoryPort`. -/
structure MemoryPort where
  memory_req_port : List Ptr
  memory_resp_port : List Ptr
  deriving DecidableEq, Repr

/-- Default construction of a `DataPort`: two empty lists. -/
def DataPort.default : DataPort := ⟨[], []⟩

/-- Default construction of a `ControlPort`: two empty lists. -/
def ControlPort.default : ControlPort := ⟨[], []⟩

/-- Default construction of a `DependencyPort`: two empty lists. -/
def DependencyPort.default : DependencyPort := ⟨[], []⟩

/-- Default construction of a `MemoryPort`: two empty lists. -/
def MemoryPort.default : MemoryPort := ⟨[], []⟩

/-- The struct `NodeInfo`. -/
structure NodeInfo where
  ID : Nat
  Name : String
  deriving DecidableEq, Repr

/-- The constructor `NodeInfo(uint32_t _id, std::string _n)`. -/
def NodeInfo.new (_id : Nat) (_n : String) : NodeInfo :=
  { ID := _id % 2 ^ 32, Name := _n }

/-- The enum `Node::NodeType`. -/
inductive NodeType where
  | SuperNodeTy
  | LoopNodeTy
  | InstructionNodeTy
  | FunctionArgTy
  | GlobalValueTy
  | ConstIntTy
  | MemoryUnitTy
  | SplitCallTy
  | UnkonwTy
  deriving DecidableEq, Repr

/-- The integer value of a `NodeType` enumerator (`SuperNodeTy = 0`, then counting up). -/
def NodeType.toNat : NodeType → Nat
  | .SuperNodeTy => 0
  | .LoopNodeTy => 1
  | .InstructionNodeTy => 2
  | .FunctionArgTy => 3
  | .GlobalValueTy => 4
  | .ConstIntTy => 5
  | .MemoryUnitTy => 6
  | .SplitCallTy => 7
  | .UnkonwTy => 8

/-- The class `Node`: its private members. -/
structure Node where
  node_type : NodeType
  info : NodeInfo
  port_data : DataPort
  port_control : ControlPort
  port_depen : DependencyPort
  deriving DecidableEq, Repr

/-- The constructor `Node(NodeType _nt, NodeInfo _ni) : info(_ni), node_type(_nt)`. -/
def Node.new (_nt : NodeType) (_ni : NodeInfo) : Node :=
  { node_type := _nt, info := _ni, port_data := DataPort.default,
    port_control := ControlPort.default, port_depen := DependencyPort.default }

/-- Member `uint32_t getID()`. -/
def Node.getID (this : Node) : Nat := this.info.ID

/-- Member `std::string getName()`. -/
def Node.getName (this : Node) : String := this.info.Name

/-- Member `uint32_t getType() const`: the enumerator converted to `uint32_t`. -/
def Node.getType (this : Node) : Nat := this.node_type.toNat % 2 ^ 32

/-! ## The classes derived from `Node` -/

/-- The enum `SuperNode::SuperNodeType`. -/
inductive SuperNodeType where
  | Mask
  | NoMask
  | LoopHead
  deriving DecidableEq, Repr

/-- The class `SuperNode`. -/
structure SuperNode extends Node where
  activate_input : Ptr
  basic_block : Ptr
  instruction_list : List Ptr
  phi_list : List Ptr
  type : SuperNodeType
  deriving DecidableEq, Repr

/-- The constructor `SuperNode(NodeInfo _nf, llvm::BasicBlock *_bb = nullptr)`. -/
def SuperNode.new (_nf : NodeInfo) (_bb : Ptr) : SuperNode :=
  { toNode := Node.new NodeType.SuperNodeTy _nf, activate_input := Ptr.null,
    basic_block := _bb, instruction_list := [], phi_list := [],
    type := SuperNodeType.NoMask }

/-- Member `SuperNode::classof(const Node *T)`. -/
def SuperNode.classof (T : Node) : Bool :=
  T.getType == NodeType.SuperNodeTy.toNat

/-- Member `void setNodeType(SuperNodeType _t)`. -/
def SuperNode.setNodeType (this : SuperNode) (_t : SuperNodeType) : SuperNode :=
  { this with type := _t }

/-- Member `void setActivateInput(Node *_n)`. -/
def SuperNode.setActivateInput (this : SuperNode) (_n : Ptr) : SuperNode :=
  { this with activate_input := _n }

/-- Member `bool hasPhi()`. -/
def SuperNode.hasPhi (this : SuperNode) : Bool := !this.phi_list.isEmpty

/-- Member `uint32_t getNumPhi() const`. -/
def SuperNode.getNumPhi (this : SuperNode) : Nat := this.phi_list.length % 2 ^ 32

/-- Member `const SuperNodeType getNodeType()`. -/
def SuperNode.getNodeType (this : SuperNode) : SuperNodeType := this.type

/-- Member `auto getActivateNode()`. -/
def SuperNode.getActivateNode (this : SuperNode) : Ptr := this.activate_input

/-- The class `MemoryNode`. -/
structure MemoryNode extends Node where
  read_port_data : MemoryPort
  write_port_data : MemoryPort
  deriving DecidableEq, Repr

/-- The constructor `MemoryNode(NodeInfo _nf)`. -/
def MemoryNode.new (_nf : NodeInfo) : MemoryNode :=
  { toNode := Node.new NodeType.MemoryUnitTy _nf, read_port_data := MemoryPort.default,
    write_port_data := MemoryPort.default }

/-- Member `MemoryNode::classof(const Node *T)`. -/
def MemoryNode.classof (T : Node) : Bool :=
  T.getType == NodeType.MemoryUnitTy.toNat

/-- Member `uint32_t numReadDataInputPort()`. -/
def MemoryNode.numReadDataInputPort (this : MemoryNode) : Nat :=
  this.read_port_data.memory_req_port.length % 2 ^ 32

/-- Member `uint32_t numReadDataOutputPort()`. -/
def MemoryNode.numReadDataOutputPort (this : MemoryNode) : Nat :=
  this.read_port_data.memory_resp_port.length % 2 ^ 32

/-- Member `uint32_t numWriteDataInputPort()`. -/
def MemoryNode.numWriteDataInputPort (this : MemoryNode) : Nat :=
  this.write_port_data.memory_req_port.length % 2 ^ 32

/-- Member `uint32_t numWriteDataOutputPort()`. -/
def MemoryNode.numWriteDataOutputPort (this : MemoryNode) : Nat :=
  this.write_port_data.memory_resp_port.length % 2 ^ 32

/-- The class `LoopNode`. -/
structure LoopNode extends Node where
  instruction_list : List Ptr
  basic_block_list : List Ptr
  head_node : Ptr
  latch_node : Ptr
  deriving DecidableEq, Repr

/-- The constructor
`LoopNode(NodeInfo _nf, SuperNode *_hnode = nullptr, SuperNode *_lnode = nullptr)`. -/
def LoopNode.new (_nf : NodeInfo) (_hnode _lnode : Ptr) : LoopNode :=
  { toNode := Node.new NodeType.LoopNodeTy _nf, instruction_list := [],
    basic_block_list := [], head_node := _hnode, latch_node := _lnode }

/-- Member `LoopNode::classof(const Node *T)`. -/
def LoopNode.classof (T : Node) : Bool :=
  T.getType == NodeType.LoopNodeTy.toNat

/-- The range `bblocks()`: the entries of `basic_block_list` from `bb_begin()` to `bb_end()`. -/
def LoopNode.bblocks (this : LoopNode) : List Ptr := this.basic_block_list

/-- Member `void setHeadNode(SuperNode *_n)`. -/
def LoopNode.setHeadNode (this : LoopNode) (_n : Ptr) : LoopNode :=
  { this with head_node := _n }

/-- Member `void setLatchNode(SuperNode *_n)`. -/
def LoopNode.setLatchNode (this : LoopNode) (_n : Ptr) : LoopNode :=
  { this with latch_node := _n }

/-- The enum `InstructionNode::InstType` (the `TAPIR` enumerators are not compiled in). -/
inductive InstType where
  | BinaryInstructionTy
  | IcmpInstructionTy
  | BranchInstructionTy
  | PhiInstructionTy
  | AllocaInstructionTy
  | GetElementPtrInstTy
  | LoadInstructionTy
  | StoreInstructionTy
  | SextInstructionTy
  | ZextInstructionTy
  | BitCastInstructionTy
  | TruncInstructionTy
  | SelectInstructionTy
  | ReturnInstrunctionTy
  | CallInstructionTy
  deriving DecidableEq, Repr

/-- The integer value of an `InstType` enumerator. -/
def InstType.toNat : InstType → Nat
  | .BinaryInstructionTy => 0
  | .IcmpInstructionTy => 1
  | .BranchInstructionTy => 2
  | .PhiInstructionTy => 3
  | .AllocaInstructionTy => 4
  | .GetElementPtrInstTy => 5
  | .LoadInstructionTy => 6
  | .StoreInstructionTy => 7
  | .SextInstructionTy => 8
  | .ZextInstructionTy => 9
  | .BitCastInstructionTy => 10
  | .TruncInstructionTy => 11
  | .SelectInstructionTy => 12
  | .ReturnInstrunctionTy => 13
  | .CallInstructionTy => 14

/-- The class `InstructionNode`. -/
structure InstructionNode extends Node where
  ins_type : InstType
  parent_instruction : Ptr
  deriving DecidableEq, Repr

/-- The constructor
`InstructionNode(NodeInfo _ni, InstType _ins_t, llvm::Instruction *_ins = nullptr)`. -/
def InstructionNode.new (_ni : NodeInfo) (_ins_t : InstType) (_ins : Ptr) : InstructionNode :=
  { toNode := Node.new NodeType.InstructionNodeTy _ni, ins_type := _ins_t,
    parent_instruction := _ins }

/-- Member `uint32_t getOpCode() const`. -/
def InstructionNode.getOpCode (this : InstructionNode) : Nat := this.ins_type.toNat % 2 ^ 32

/-- Member `bool isBinaryOp() const`. -/
def InstructionNode.isBinaryOp (this : InstructionNode) : Bool :=
  this.ins_type == InstType.BinaryInstructionTy

/-- Member `InstructionNode::classof(const Node *T)`. -/
def InstructionNode.classof (T : Node) : Bool :=
  T.getType == NodeType.InstructionNodeTy.toNat

/-! ## The instruction variants -/

/-- The class `BinaryOperatorNode`. -/
structure BinaryOperatorNode extends InstructionNode where
  deriving DecidableEq, Repr

/-- The constructor `BinaryOperatorNode(NodeInfo _ni, llvm::BinaryOperator *_ins = nullptr)`. -/
def BinaryOperatorNode.new (_ni : NodeInfo) (_ins : Ptr) : BinaryOperatorNode :=
  { toInstructionNode := InstructionNode.new _ni InstType.BinaryInstructionTy _ins }

/-- Member `BinaryOperatorNode::classof(const InstructionNode *)`. -/
def BinaryOperatorNode.classofInst (I : InstructionNode) : Bool :=
  I.getOpCode == InstType.BinaryInstructionTy.toNat

/-- The class `IcmpNode`. -/
structure IcmpNode extends InstructionNode where
  deriving DecidableEq, Repr

/-- The constructor `IcmpNode(NodeInfo _ni, llvm::ICmpInst *_ins = nullptr)`. -/
def IcmpNode.new (_ni : NodeInfo) (_ins : Ptr) : IcmpNode :=
  { toInstructionNode := InstructionNode.new _ni InstType.IcmpInstructionTy _ins }

/-- Member `IcmpNode::classof(const InstructionNode *)`. -/
def IcmpNode.classofInst (I : InstructionNode) : Bool :=
  I.getOpCode == InstType.IcmpInstructionTy.toNat

/-- The class `BranchNode`. -/
structure BranchNode extends InstructionNode where
  deriving DecidableEq, Repr

/-- The constructor `BranchNode(NodeInfo _ni, llvm::BranchInst *_ins = nullptr)`. -/
def BranchNode.new (_ni : NodeInfo) (_ins : Ptr) : BranchNode :=
  { toInstructionNode := InstructionNode.new _ni InstType.BranchInstructionTy _ins }

/-- Member `BranchNode::classof(const InstructionNode *)`. -/
def BranchNode.classofInst (I : InstructionNode) : Bool :=
  I.getOpCode == InstType.BranchInstructionTy.toNat

/-- The class `PhiSelectNode`. No constructor initialises `mask_node`. -/
structure PhiSelectNode extends InstructionNode where
  mask_node : Option Ptr
  deriving DecidableEq, Repr

/-- The constructor
`PhiSelectNode(NodeInfo _ni, llvm::PHINode *_ins = nullptr, SuperNode *_parent = nullptr)`:
its initialiser list is `InstructionNode(_ni, InstType::PhiInstructionTy, _ins)` alone, so
`_parent` is not used and `mask_node` is left uninitialised. -/
def PhiSelectNode.new (_ni : NodeInfo) (_ins : Ptr) (_parent : Ptr) : PhiSelectNode :=
  { toInstructionNode := InstructionNode.new _ni InstType.PhiInstructionTy _ins,
    mask_node := none }

/-- Member `SuperNode *getMaskNode() const`. -/
def PhiSelectNode.getMaskNode (this : PhiSelectNode) : Option Ptr := this.mask_node

/-- Member `void setParentNode(SuperNode *_parent)`. -/
def PhiSelectNode.setParentNode (this : PhiSelectNode) (_parent : Ptr) : PhiSelectNode :=
  { this with mask_node := some _parent }

/-- Member `PhiSelectNode::classof(const InstructionNode *)`. -/
def PhiSelectNode.classofInst (I : InstructionNode) : Bool :=
  I.getOpCode == InstType.PhiInstructionTy.toNat

/-- The class `AllocaNode`. -/
structure AllocaNode extends InstructionNode where
  deriving DecidableEq, Repr

/-- The constructor `AllocaNode(NodeInfo _ni, llvm::AllocaInst *_ins = nullptr)`. -/
def AllocaNode.new (_ni : NodeInfo) (_ins : Ptr) : AllocaNode :=
  { toInstructionNode := InstructionNode.new _ni InstType.AllocaInstructionTy _ins }

/-- Member `AllocaNode::classof(const InstructionNode *)`. -/
def AllocaNode.classofInst (I : InstructionNode) : Bool :=
  I.getOpCode == InstType.AllocaInstructionTy.toNat

/-- The class `GEPNode`. -/
structure GEPNode extends InstructionNode where
  deriving DecidableEq, Repr

/-- The constructor `GEPNode(NodeInfo _ni, llvm::GetElementPtrInst *_ins = nullptr)`. -/
def GEPNode.new (_ni : NodeInfo) (_ins : Ptr) : GEPNode :=
  { toInstructionNode := InstructionNode.new _ni InstType.GetElementPtrInstTy _ins }

/-- Member `GEPNode::classof(const InstructionNode *)`. -/
def GEPNode.classofInst (I : InstructionNode) : Bool :=
  I.getOpCode == InstType.GetElementPtrInstTy.toNat

/-- The class `LoadNode`. -/
structure LoadNode extends InstructionNode where
  read_port_data : MemoryPort
  mem_unit : Ptr
  deriving DecidableEq, Repr

/-- The constructor
`LoadNode(NodeInfo _ni, llvm::LoadInst *_ins = nullptr, MemoryNode *_node = nullptr)`. -/
def LoadNode.new (_ni : NodeInfo) (_ins : Ptr) (_node : Ptr) : LoadNode :=
  { toInstructionNode := InstructionNode.new _ni InstType.LoadInstructionTy _ins,
    read_port_data := MemoryPort.default, mem_unit := _node }

/-- Member `void setMemoryUnit(MemoryNode *_node)`. -/
def LoadNode.setMemoryUnit (this : LoadNode) (_node : Ptr) : LoadNode :=
  { this with mem_unit := _node }

/-- Member `LoadNode::classof(const InstructionNode *)`. -/
def LoadNode.classofInst (I : InstructionNode) : Bool :=
  I.getOpCode == InstType.LoadInstructionTy.toNat

/-- The class `StoreNode`. -/
structure StoreNode extends InstructionNode where
  write_port_data : MemoryPort
  mem_node : Ptr
  deriving DecidableEq, Repr

/-- The constructor
`StoreNode(NodeInfo _ni, llvm::StoreInst *_ins = nullptr, MemoryNode *_mem = nullptr)`. -/
def StoreNode.new (_ni : NodeInfo) (_ins : Ptr) (_mem : Ptr) : StoreNode :=
  { toInstructionNode := InstructionNode.new _ni InstType.StoreInstructionTy _ins,
    write_port_data := MemoryPort.default, mem_node := _mem }

/-- Member `StoreNode::classof(const InstructionNode *)`. -/
def StoreNode.classofInst (I : InstructionNode) : Bool :=
  I.getOpCode == InstType.StoreInstructionTy.toNat

/-- The class `ReturnNode`. -/
structure ReturnNode extends InstructionNode where
  deriving DecidableEq, Repr

/-- The constructor
`ReturnNode(NodeInfo _ni, llvm::ReturnInst *_ins = nullptr, NodeType _nd = UnkonwTy)`: `_nd` is
not used. -/
def ReturnNode.new (_ni : NodeInfo) (_ins : Ptr) (_nd : NodeType) : ReturnNode :=
  { toInstructionNode := InstructionNode.new _ni InstType.ReturnInstrunctionTy _ins }

/-- Member `ReturnNode::classof(const InstructionNode *)`. -/
def ReturnNode.classofInst (I : InstructionNode) : Bool :=
  I.getOpCode == InstType.ReturnInstrunctionTy.toNat

/-- The class `CallNode`. -/
structure CallNode extends InstructionNode where
  deriving DecidableEq, Repr

/-- The constructor
`CallNode(NodeInfo _ni, llvm::CallInst *_ins = nullptr, NodeType _nd = UnkonwTy)`: `_nd` is
not used. -/
def CallNode.new (_ni : NodeInfo) (_ins : Ptr) (_nd : NodeType) : CallNode :=
  { toInstructionNode := InstructionNode.new _ni InstType.CallInstructionTy _ins }

/-- Member `CallNode::classof(const InstructionNode *)`. -/
def CallNode.classofInst (I : InstructionNode) : Bool :=
  I.getOpCode == InstType.CallInstructionTy.toNat

/-! ## Value sources and the call boundary -/

/-- The class `ArgumentNode`. -/
structure ArgumentNode extends Node where
  parent_argument : Ptr
  deriving DecidableEq, Repr

/-- The constructor `ArgumentNode(NodeInfo _ni, llvm::Argument *_arg = nullptr)`. -/
def ArgumentNode.new (_ni : NodeInfo) (_arg : Ptr) : ArgumentNode :=
  { toNode := Node.new NodeType.FunctionArgTy _ni, parent_argument := _arg }

/-- Member `const llvm::Argument *getArgumentValue()`. -/
def ArgumentNode.getArgumentValue (this : ArgumentNode) : Ptr := this.parent_argument

/-- The class `GlobalValueNode`. -/
structure GlobalValueNode extends Node where
  parent_glob : Ptr
  deriving DecidableEq, Repr

/-- The constructor `GlobalValueNode(NodeInfo _ni, llvm::GlobalValue *_glb = nullptr)`. -/
def GlobalValueNode.new (_ni : NodeInfo) (_glb : Ptr) : GlobalValueNode :=
  { toNode := Node.new NodeType.GlobalValueTy _ni, parent_glob := _glb }

/-- The class `ConstIntNode`. -/
structure ConstIntNode extends Node where
  parent_const_int : Ptr
  deriving DecidableEq, Repr

/-- The constructor `ConstIntNode(NodeInfo _ni, llvm::ConstantInt *_cint = nullptr)`. -/
def ConstIntNode.new (_ni : NodeInfo) (_cint : Ptr) : ConstIntNode :=
  { toNode := Node.new NodeType.ConstIntTy _ni, parent_const_int := _cint }

/-- The class `SplitCallNode`; `fun_arg_list` owns its `ArgumentNode`s. -/
structure SplitCallNode extends Node where
  fun_arg_list : List ArgumentNode
  deriving DecidableEq, Repr

/-- The constructor `SplitCallNode(NodeInfo _nf)`. -/
def SplitCallNode.new (_nf : NodeInfo) : SplitCallNode :=
  { toNode := Node.new NodeType.SplitCallTy _nf, fun_arg_list := [] }

/-- Member `SplitCallNode::classof(const Node *T)`: the header compares with `Node::SuperNodeTy`. -/
def SplitCallNode.classof (T : Node) : Bool :=
  T.getType == NodeType.SuperNodeTy.toNat

/-! ## Objects: what a `Node *` points at -/

/-- The classes of the header. -/
inductive Class where
  | Node
  | SuperNode
  | MemoryNode
  | LoopNode
  | InstructionNode
  | BinaryOperatorNode
  | IcmpNode
  | BranchNode
  | PhiSelectNode
  | AllocaNode
  | GEPNode
  | LoadNode
  | StoreNode
  | ReturnNode
  | CallNode
  | ArgumentNode
  | GlobalValueNode
  | ConstIntNode
  | SplitCallNode
  deriving DecidableEq, Repr

/-- A complete object of one of the classes of the header. -/
inductive Object where
  | node (x : Node)
  | superNode (x : SuperNode)
  | memoryNode (x : MemoryNode)
  | loopNode (x : LoopNode)
  | instructionNode (x : InstructionNode)
  | binaryOperatorNode (x : BinaryOperatorNode)
  | icmpNode (x : IcmpNode)
  | branchNode (x : BranchNode)
  | phiSelectNode (x : PhiSelectNode)
  | allocaNode (x : AllocaNode)
  | gepNode (x : GEPNode)
  | loadNode (x : LoadNode)
  | storeNode (x : StoreNode)
  | returnNode (x : ReturnNode)
  | callNode (x : CallNode)
  | argumentNode (x : ArgumentNode)
  | globalValueNode (x : GlobalValueNode)
  | constIntNode (x : ConstIntNode)
  | splitCallNode (x : SplitCallNode)
  deriving DecidableEq, Repr

/-- The dynamic class of an object. -/
def Object.cls : Object → Class
  | .node _ => Class.Node
  | .superNode _ => Class.SuperNode
  | .memoryNode _ => Class.MemoryNode
  | .loopNode _ => Class.LoopNode
  | .instructionNode _ => Class.InstructionNode
  | .binaryOperatorNode _ => Class.BinaryOperatorNode
  | .icmpNode _ => Class.IcmpNode
  | .branchNode _ => Class.BranchNode
  | .phiSelectNode _ => Class.PhiSelectNode
  | .allocaNode _ => Class.AllocaNode
  | .gepNode _ => Class.GEPNode
  | .loadNode _ => Class.LoadNode
  | .storeNode _ => Class.StoreNode
  | .returnNode _ => Class.ReturnNode
  | .callNode _ => Class.CallNode
  | .argumentNode _ => Class.ArgumentNode
  | .globalValueNode _ => Class.GlobalValueNode
  | .constIntNode _ => Class.ConstIntNode
  | .splitCallNode _ => Class.SplitCallNode

/-- The `Node` base subobject: the conversion of a pointer to the object to `Node *`. -/
def Object.toNode : Object → Node
  | .node x => x
  | .superNode x => x.toNode
  | .memoryNode x => x.toNode
  | .loopNode x => x.toNode
  | .instructionNode x => x.toNode
  | .binaryOperatorNode x => x.toInstructionNode.toNode
  | .icmpNode x => x.toInstructionNode.toNode
  | .branchNode x => x.toInstructionNode.toNode
  | .phiSelectNode x => x.toInstructionNode.toNode
  | .allocaNode x => x.toInstructionNode.toNode
  | .gepNode x => x.toInstructionNode.toNode
  | .loadNode x => x.toInstructionNode.toNode
  | .storeNode x => x.toInstructionNode.toNode
  | .returnNode x => x.toInstructionNode.toNode
  | .callNode x => x.toInstructionNode.toNode
  | .argumentNode x => x.toNode
  | .globalValueNode x => x.toNode
  | .constIntNode x => x.toNode
  | .splitCallNode x => x.toNode

/-- The `InstructionNode` subobject that `static_cast<const InstructionNode *>` of a `Node *`
yields: it exists when the dynamic class is `InstructionNode` or derives from it; the cast
of a pointer to any other object is undefined (`none`). -/
def Object.toInstructionNode? : Object → Option InstructionNode
  | .instructionNode x => some x
  | .binaryOperatorNode x => some x.toInstructionNode
  | .icmpNode x => some x.toInstructionNode
  | .branchNode x => some x.toInstructionNode
  | .phiSelectNode x => some x.toInstructionNode
  | .allocaNode x => some x.toInstructionNode
  | .gepNode x => some x.toInstructionNode
  | .loadNode x => some x.toInstructionNode
  | .storeNode x => some x.toInstructionNode
  | .returnNode x => some x.toInstructionNode
  | .callNode x => some x.toInstructionNode
  | _ => none

/-- The call `isa<InstructionNode>(T)` of `llvm/Support/Casting.h` on a `const Node *`:
it is `InstructionNode::classof(T)`. -/
def isa_InstructionNode (T : Object) : Bool :=
  InstructionNode.classof T.toNode

/-- The call `cast<InstructionNode>(T)` of `llvm/Support/Casting.h` on a `const Node *`: it
asserts `isa<InstructionNode>(T)` and then is the static cast. `none` is a failed assertion
or an undefined cast. -/
def cast_InstructionNode (T : Object) : Option InstructionNode :=
  if isa_InstructionNode T then T.toInstructionNode? else none

/-- The opcode `getOpCode()` of the object seen as an `InstructionNode`, when it is one. -/
def Object.getOpCode? (T : Object) : Option Nat :=
  T.toInstructionNode?.map InstructionNode.getOpCode

/-- Member `BinaryOperatorNode::classof(const Node *T)`:
`isa<InstructionNode>(T) && classof(cast<InstructionNode>(T))`; the right operand of `&&` is
evaluated only when the left one is true. `none` is a failed cast. -/
def BinaryOperatorNode.classof (T : Object) : Option Bool :=
  if isa_InstructionNode T then (cast_InstructionNode T).map BinaryOperatorNode.classofInst
  else some false

/-- Member `IcmpNode::classof(const Node *T)`:
`isa<InstructionNode>(T) && classof(cast<InstructionNode>(T))`; the right operand of `&&` is
evaluated only when the left one is true. `none` is a failed cast. -/
def IcmpNode.classof (T : Object) : Option Bool :=
  if isa_InstructionNode T then (cast_InstructionNode T).map IcmpNode.classofInst
  else some false

/-- Member `BranchNode::classof(const Node *T)`:
`isa<InstructionNode>(T) && classof(cast<InstructionNode>(T))`; the right operand of `&&` is
evaluated only when the left one is true. `none` is a failed cast. -/
def BranchNode.classof (T : Object) : Option Bool :=
  if isa_InstructionNode T then (cast_InstructionNode T).map BranchNode.classofInst
  else some false

/-- Member `PhiSelectNode::classof(const Node *T)`:
`isa<InstructionNode>(T) && classof(cast<InstructionNode>(T))`; the right operand of `&&` is
evaluated only when the left one is true. `none` is a failed cast. -/
def PhiSelectNode.classof (T : Object) : Option Bool :=
  if isa_InstructionNode T then (cast_InstructionNode T).map PhiSelectNode.classofInst
  else some false

/-- Member `AllocaNode::classof(const Node *T)`:
`isa<InstructionNode>(T) && classof(cast<InstructionNode>(T))`; the right operand of `&&` is
evaluated only when the left one is true. `none` is a failed cast. -/
def AllocaNode.classof (T : Object) : Option Bool :=
  if isa_InstructionNode T then (cast_InstructionNode T).map AllocaNode.classofInst
  else some false

/-- Member `GEPNode::classof(const Node *T)`:
`isa<InstructionNode>(T) && classof(cast<InstructionNode>(T))`; the right operand of `&&` is
evaluated only when the left one is true. `none` is a failed cast. -/
def GEPNode.classof (T : Object) : Option Bool :=
  if isa_InstructionNode T then (cast_InstructionNode T).map GEPNode.classofInst
  else some false

/-- Member `LoadNode::classof(const Node *T)`:
`isa<InstructionNode>(T) && classof(cast<InstructionNode>(T))`; the right operand of `&&` is
evaluated only when the left one is true. `none` is a failed cast. -/
def LoadNode.classof (T : Object) : Option Bool :=
  if isa_InstructionNode T then (cast_InstructionNode T).map LoadNode.classofInst
  else some false

/-- Member `StoreNode::classof(const Node *T)`:
`isa<InstructionNode>(T) && classof(cast<InstructionNode>(T))`; the right operand of `&&` is
evaluated only when the left one is true. `none` is a failed cast. -/
def StoreNode.classof (T : Object) : Option Bool :=
  if isa_InstructionNode T then (cast_InstructionNode T).map StoreNode.classofInst
  else some false

/-- Member `ReturnNode::classof(const Node *T)`:
`isa<InstructionNode>(T) && classof(cast<InstructionNode>(T))`; the right operand of `&&` is
evaluated only when the left one is true. `none` is a failed cast. -/
def ReturnNode.classof (T : Object) : Option Bool :=
  if isa_InstructionNode T then (cast_InstructionNode T).map ReturnNode.classofInst
  else some false

/-- Member `CallNode::classof(const Node *T)`:
`isa<InstructionNode>(T) && classof(cast<InstructionNode>(T))`; the right operand of `&&` is
evaluated only when the left one is true. `none` is a failed cast. -/
def CallNode.classof (T : Object) : Option Bool :=
  if isa_InstructionNode T then (cast_InstructionNode T).map CallNode.classofInst
  else some false

/-- The ten instruction variants that define `classof`. -/
inductive Variant where
  | BinaryOperatorNode
  | IcmpNode
  | BranchNode
  | PhiSelectNode
  | AllocaNode
  | GEPNode
  | LoadNode
  | StoreNode
  | ReturnNode
  | CallNode
  deriving DecidableEq, Repr

/-- The `InstType` enumerator named after the variant. -/
def Variant.tag : Variant → InstType
  | .BinaryOperatorNode => InstType.BinaryInstructionTy
  | .IcmpNode => InstType.IcmpInstructionTy
  | .BranchNode => InstType.BranchInstructionTy
  | .PhiSelectNode => InstType.PhiInstructionTy
  | .AllocaNode => InstType.AllocaInstructionTy
  | .GEPNode => InstType.GetElementPtrInstTy
  | .LoadNode => InstType.LoadInstructionTy
  | .StoreNode => InstType.StoreInstructionTy
  | .ReturnNode => InstType.ReturnInstrunctionTy
  | .CallNode => InstType.CallInstructionTy

/-- The call `V::classof(T)` on a `const Node *`, for the variant `V`. -/
def Variant.classof : Variant → Object → Option Bool
  | .BinaryOperatorNode => BinaryOperatorNode.classof
  | .IcmpNode => IcmpNode.classof
  | .BranchNode => BranchNode.classof
  | .PhiSelectNode => PhiSelectNode.classof
  | .AllocaNode => AllocaNode.classof
  | .GEPNode => GEPNode.classof
  | .LoadNode => LoadNode.classof
  | .StoreNode => StoreNode.classof
  | .ReturnNode => ReturnNode.classof
  | .CallNode => CallNode.classof

/-- The object built by the constructor of the variant `V` from a `NodeInfo`, the parent
instruction `_ins`, and the third argument where the constructor has one: `_aux` is
`_parent` of `PhiSelectNode`, `_node` of `LoadNode` and `_mem` of `StoreNode`; `_nd` is the
`NodeType` argument of `ReturnNode` and `CallNode`. -/
def Variant.construct (V : Variant) (_ni : NodeInfo) (_ins _aux : Ptr) (_nd : NodeType) :
    Object :=
  match V with
  | .BinaryOperatorNode => Object.binaryOperatorNode (BinaryOperatorNode.new _ni _ins)
  | .IcmpNode => Object.icmpNode (IcmpNode.new _ni _ins)
  | .BranchNode => Object.branchNode (BranchNode.new _ni _ins)
  | .PhiSelectNode => Object.phiSelectNode (PhiSelectNode.new _ni _ins _aux)
  | .AllocaNode => Object.allocaNode (AllocaNode.new _ni _ins)
  | .GEPNode => Object.gepNode (GEPNode.new _ni _ins)
  | .LoadNode => Object.loadNode (LoadNode.new _ni _ins _aux)
  | .StoreNode => Object.storeNode (StoreNode.new _ni _ins _aux)
  | .ReturnNode => Object.returnNode (ReturnNode.new _ni _ins _nd)
  | .CallNode => Object.callNode (CallNode.new _ni _ins _nd)

/-! ## The emission methods

Each of the nine virtual methods of `Node` is a function from the object (`this`), the
`PrintType` and, for the overloads with a port index, the index, to the returned string and
the object after the call. -/

/-- The nine virtual emission methods that `Node` declares; `_idx` marks the overload
with a `uint32_t` port index. -/
inductive Method where
  | printDefinition
  | printInputEnable_idx
  | printInputEnable
  | printOutputEnable
  | printOutputEnable_idx
  | printInputData
  | printInputData_idx
  | printOutputData
  | printOutputData_idx
  deriving DecidableEq, Repr

/-- Member `Node::printDefinition(PrintType)`. -/
def Node.printDefinition (this : Node) (_ : PrintType) : String × Node :=
  (this.info.Name ++ "Not defined!", this)

/-- Member `Node::printInputEnable(PrintType, uint32_t)`. -/
def Node.printInputEnable_idx (this : Node) (_ : PrintType) (_ : Nat) : String × Node :=
  ("Not defined!", this)

/-- Member `Node::printInputEnable(PrintType)`. -/
def Node.printInputEnable (this : Node) (_ : PrintType) : String × Node :=
  ("Not defined!", this)

/-- Member `Node::printOutputEnable(PrintType)`. -/
def Node.printOutputEnable (this : Node) (_ : PrintType) : String × Node :=
  (this.info.Name ++ " Not defined!", this)

/-- Member `Node::printOutputEnable(PrintType, uint32_t)`. -/
def Node.printOutputEnable_idx (this : Node) (_ : PrintType) (_ : Nat) : String × Node :=
  ("Not defined!", this)

/-- Member `Node::printInputData(PrintType)`. -/
def Node.printInputData (this : Node) (_ : PrintType) : String × Node :=
  ("Not defined!", this)

/-- Member `Node::printInputData(PrintType, uint32_t)`. -/
def Node.printInputData_idx (this : Node) (_ : PrintType) (_ : Nat) : String × Node :=
  ("Not defined!", this)

/-- Member `Node::printOutputData(PrintType)`. -/
def Node.printOutputData (this : Node) (_ : PrintType) : String × Node :=
  ("Not defined!", this)

/-- Member `Node::printOutputData(PrintType, uint32_t)`. -/
def Node.printOutputData_idx (this : Node) (_ : PrintType) (_ : Nat) : String × Node :=
  ("Not defined!", this)

/-- Member `InstructionNode::printDefinition(PrintType)`. -/
def InstructionNode.printDefinition (this : InstructionNode) (_ : PrintType) :
    String × InstructionNode :=
  ("Not defined instructions\n", this)

/-- The body of `Node` for the method `m`, called with the `PrintType` and the index (the
index is not passed to an overload without one). -/
def Node.call (m : Method) (this : Node) (pt : PrintType) (idx : Nat) : String × Node :=
  match m with
  | .printDefinition => this.printDefinition pt
  | .printInputEnable_idx => this.printInputEnable_idx pt idx
  | .printInputEnable => this.printInputEnable pt
  | .printOutputEnable => this.printOutputEnable pt
  | .printOutputEnable_idx => this.printOutputEnable_idx pt idx
  | .printInputData => this.printInputData pt
  | .printInputData_idx => this.printInputData_idx pt idx
  | .printOutputData => this.printOutputData pt
  | .printOutputData_idx => this.printOutputData_idx pt idx

/-- The direct base class. -/
def Class.base : Class → Option Class
  | .Node => none
  | .SuperNode => some Class.Node
  | .MemoryNode => some Class.Node
  | .LoopNode => some Class.Node
  | .InstructionNode => some Class.Node
  | .BinaryOperatorNode => some Class.InstructionNode
  | .IcmpNode => some Class.InstructionNode
  | .BranchNode => some Class.InstructionNode
  | .PhiSelectNode => some Class.InstructionNode
  | .AllocaNode => some Class.InstructionNode
  | .GEPNode => some Class.InstructionNode
  | .LoadNode => some Class.InstructionNode
  | .StoreNode => some Class.InstructionNode
  | .ReturnNode => some Class.InstructionNode
  | .CallNode => some Class.InstructionNode
  | .ArgumentNode => some Class.Node
  | .GlobalValueNode => some Class.Node
  | .ConstIntNode => some Class.Node
  | .SplitCallNode => some Class.Node

/-- The emission methods that the class itself declares in the header (for a derived
class: the ones it overrides). -/
def Class.declares : Class → List Method
  | .Node => [.printDefinition, .printInputEnable_idx, .printInputEnable, .printOutputEnable, .printOutputEnable_idx, .printInputData, .printInputData_idx, .printOutputData, .printOutputData_idx]
  | .SuperNode => [.printDefinition, .printInputEnable_idx, .printOutputEnable_idx]
  | .MemoryNode => [.printDefinition]
  | .LoopNode => [.printDefinition, .printOutputEnable, .printInputEnable_idx]
  | .InstructionNode => [.printDefinition]
  | .BinaryOperatorNode => [.printDefinition, .printInputEnable, .printOutputData_idx, .printInputData_idx]
  | .IcmpNode => [.printDefinition, .printInputEnable, .printInputData_idx, .printOutputData_idx]
  | .BranchNode => [.printDefinition, .printOutputEnable_idx, .printInputEnable, .printInputData_idx]
  | .PhiSelectNode => [.printDefinition, .printInputEnable, .printInputData_idx, .printOutputData_idx]
  | .AllocaNode => []
  | .GEPNode => [.printDefinition, .printInputEnable, .printInputEnable_idx, .printInputData_idx, .printOutputData_idx]
  | .LoadNode => [.printDefinition, .printInputEnable, .printInputEnable_idx, .printInputData_idx, .printOutputData_idx]
  | .StoreNode => [.printDefinition, .printInputEnable, .printInputEnable_idx, .printInputData, .printInputData_idx]
  | .ReturnNode => [.printDefinition, .printInputEnable, .printOutputData_idx, .printInputData_idx]
  | .CallNode => []
  | .ArgumentNode => [.printDefinition, .printInputData_idx, .printOutputData_idx]
  | .GlobalValueNode => []
  | .ConstIntNode => [.printOutputData_idx]
  | .SplitCallNode => [.printDefinition, .printOutputEnable_idx, .printOutputData_idx]

/-- The class whose body a virtual call of `m` on an object of dynamic class `c` runs: `c`
when it declares `m`, else its base when that declares `m`, else the base of the base (the
hierarchy is at most three classes deep and `Node` declares all nine). -/
def Class.finalOverrider (c : Class) (m : Method) : Class :=
  if m ∈ c.declares then c
  else match c.base with
    | none => c
    | some b =>
      if m ∈ b.declares then b
      else match b.base with
        | none => b
        | some bb => bb

/-- The object with its `Node` base subobject replaced. -/
def Object.withNode : Object → Node → Object
  | .node _, n => .node n
  | .superNode x, n => .superNode { x with toNode := n }
  | .memoryNode x, n => .memoryNode { x with toNode := n }
  | .loopNode x, n => .loopNode { x with toNode := n }
  | .instructionNode x, n => .instructionNode { x with toNode := n }
  | .binaryOperatorNode x, n => .binaryOperatorNode { x with toInstructionNode := { x.toInstructionNode with toNode := n } }
  | .icmpNode x, n => .icmpNode { x with toInstructionNode := { x.toInstructionNode with toNode := n } }
  | .branchNode x, n => .branchNode { x with toInstructionNode := { x.toInstructionNode with toNode := n } }
  | .phiSelectNode x, n => .phiSelectNode { x with toInstructionNode := { x.toInstructionNode with toNode := n } }
  | .allocaNode x, n => .allocaNode { x with toInstructionNode := { x.toInstructionNode with toNode := n } }
  | .gepNode x, n => .gepNode { x with toInstructionNode := { x.toInstructionNode with toNode := n } }
  | .loadNode x, n => .loadNode { x with toInstructionNode := { x.toInstructionNode with toNode := n } }
  | .storeNode x, n => .storeNode { x with toInstructionNode := { x.toInstructionNode with toNode := n } }
  | .returnNode x, n => .returnNode { x with toInstructionNode := { x.toInstructionNode with toNode := n } }
  | .callNode x, n => .callNode { x with toInstructionNode := { x.toInstructionNode with toNode := n } }
  | .argumentNode x, n => .argumentNode { x with toNode := n }
  | .globalValueNode x, n => .globalValueNode { x with toNode := n }
  | .constIntNode x, n => .constIntNode { x with toNode := n }
  | .splitCallNode x, n => .splitCallNode { x with toNode := n }

/-- The object with its `InstructionNode` base subobject replaced (an object without one
is left as it is). -/
def Object.withInstructionNode : Object → InstructionNode → Object
  | .instructionNode _, i => .instructionNode i
  | .binaryOperatorNode x, i => .binaryOperatorNode { x with toInstructionNode := i }
  | .icmpNode x, i => .icmpNode { x with toInstructionNode := i }
  | .branchNode x, i => .branchNode { x with toInstructionNode := i }
  | .phiSelectNode x, i => .phiSelectNode { x with toInstructionNode := i }
  | .allocaNode x, i => .allocaNode { x with toInstructionNode := i }
  | .gepNode x, i => .gepNode { x with toInstructionNode := i }
  | .loadNode x, i => .loadNode { x with toInstructionNode := i }
  | .storeNode x, i => .storeNode { x with toInstructionNode := i }
  | .returnNode x, i => .returnNode { x with toInstructionNode := i }
  | .callNode x, i => .callNode { x with toInstructionNode := i }
  | o, _ => o

/-- The bodies of the overriding methods that the header only declares (they are defined
outside the header): for the class, the method, the object, the `PrintType` and the index,
the returned string and the object after the call. -/
abbrev ExternalBodies := Class → Method → Object → PrintType → Nat → String × Object

/-- A virtual call of the emission method `m` on the object `o`: the body of the final
overrider runs. `Node` has the nine bodies of the header, `InstructionNode` has
`printDefinition`; every other body comes from `ext`. -/
def Object.emit (ext : ExternalBodies) (m : Method) (o : Object) (pt : PrintType)
    (idx : Nat) : String × Object :=
  match o.cls.finalOverrider m with
  | .Node =>
    let r := Node.call m o.toNode pt idx
    (r.1, o.withNode r.2)
  | .InstructionNode =>
    match o.toInstructionNode? with
    | some i =>
      let r := i.printDefinition pt
      (r.1, o.withInstructionNode r.2)
    | none => ext Class.InstructionNode m o pt idx
  | c => ext c m o pt idx

/-- A class that overrides none of the nine emission methods: every virtual call runs the
body of `Node`. -/
def Class.overridesNone (c : Class) : Bool :=
  [Method.printDefinition, .printInputEnable_idx, .printInputEnable, .printOutputEnable,
    .printOutputEnable_idx, .printInputData, .printInputData_idx, .printOutputData,
    .printOutputData_idx].all (fun m => c.finalOverrider m == Class.Node)

/-! ## Sequences of mutator calls -/

/-- A call of one of the two mutators of `SuperNode` that the header defines. -/
inductive SuperNode.Op where
  | setNodeType (_t : SuperNodeType)
  | setActivateInput (_n : Ptr)
  deriving DecidableEq, Repr

/-- The `SuperNode` after one mutator call. -/
def SuperNode.step (this : SuperNode) : SuperNode.Op → SuperNode
  | .setNodeType _t => this.setNodeType _t
  | .setActivateInput _n => this.setActivateInput _n

/-- The `SuperNode` after the calls `ops`, made in order. -/
def SuperNode.run (this : SuperNode) (ops : List SuperNode.Op) : SuperNode :=
  ops.foldl SuperNode.step this

/-- A call of one of the two mutators of `LoopNode`. -/
inductive LoopNode.Op where
  | setHeadNode (_n : Ptr)
  | setLatchNode (_n : Ptr)
  deriving DecidableEq, Repr

/-- The `LoopNode` after one mutator call. -/
def LoopNode.step (this : LoopNode) : LoopNode.Op → LoopNode
  | .setHeadNode _n => this.setHeadNode _n
  | .setLatchNode _n => this.setLatchNode _n

/-- The `LoopNode` after the calls `ops`, made in order. -/
def LoopNode.run (this : LoopNode) (ops : List LoopNode.Op) : LoopNode :=
  ops.foldl LoopNode.step this

/-- The `LoadNode` after the calls `setMemoryUnit(_node)` for the `_node`s of `ops`, made
in order. -/
def LoadNode.run (this : LoadNode) (ops : List Ptr) : LoadNode :=
  ops.foldl LoadNode.setMemoryUnit this

/-- The `PhiSelectNode` after the calls `setParentNode(_parent)` for the `_parent`s of
`ops`, made in order. -/
def PhiSelectNode.run (this : PhiSelectNode) (ops : List Ptr) : PhiSelectNode :=
  ops.foldl PhiSelectNode.setParentNode this

/-- The argument of a `setHeadNode` call. -/
def LoopNode.Op.headArg? : LoopNode.Op → Option Ptr
  | .setHeadNode _n => some _n
  | .setLatchNode _ => none

/-- The argument of a `setLatchNode` call. -/
def LoopNode.Op.latchArg? : LoopNode.Op → Option Ptr
  | .setHeadNode _ => none
  | .setLatchNode _n => some _n

/-- The loop invariant as the specification words it: the loop has a head, and its head
and its latch are members of the list that `bblocks()` exposes. -/
def LoopNode.headAndLatchAreMembers (this : LoopNode) : Prop :=
  this.head_node ≠ Ptr.null ∧ this.head_node ∈ this.bblocks ∧ this.latch_node ∈ this.bblocks

instance (this : LoopNode) : Decidable this.headAndLatchAreMembers :=
  inferInstanceAs (Decidable (_ ∧ _ ∧ _))

/-! ## The port adders, declared in the header and defined outside it -/

/-- A call of a public constructor of `Node` or of one of its subclasses, with its
arguments (a defaulted argument is the argument with the default value). -/
inductive CtorCall where
  | Node (_nt : NodeType) (_ni : NodeInfo)
  | SuperNode (_nf : NodeInfo) (_bb : Ptr)
  | MemoryNode (_nf : NodeInfo)
  | LoopNode (_nf : NodeInfo) (_hnode _lnode : Ptr)
  | InstructionNode (_ni : NodeInfo) (_ins_t : InstType) (_ins : Ptr)
  | BinaryOperatorNode (_ni : NodeInfo) (_ins : Ptr)
  | IcmpNode (_ni : NodeInfo) (_ins : Ptr)
  | BranchNode (_ni : NodeInfo) (_ins : Ptr)
  | PhiSelectNode (_ni : NodeInfo) (_ins _parent : Ptr)
  | AllocaNode (_ni : NodeInfo) (_ins : Ptr)
  | GEPNode (_ni : NodeInfo) (_ins : Ptr)
  | LoadNode (_ni : NodeInfo) (_ins _node : Ptr)
  | StoreNode (_ni : NodeInfo) (_ins _mem : Ptr)
  | ReturnNode (_ni : NodeInfo) (_ins : Ptr) (_nd : NodeType)
  | CallNode (_ni : NodeInfo) (_ins : Ptr) (_nd : NodeType)
  | ArgumentNode (_ni : NodeInfo) (_arg : Ptr)
  | GlobalValueNode (_ni : NodeInfo) (_glb : Ptr)
  | ConstIntNode (_ni : NodeInfo) (_cint : Ptr)
  | SplitCallNode (_nf : NodeInfo)
  deriving DecidableEq, Repr

/-- The object that the constructor call builds. -/
def CtorCall.build : CtorCall → Object
  | .Node _nt _ni => .node (dandelion.Node.new _nt _ni)
  | .SuperNode _nf _bb => .superNode (dandelion.SuperNode.new _nf _bb)
  | .MemoryNode _nf => .memoryNode (dandelion.MemoryNode.new _nf)
  | .LoopNode _nf _hnode _lnode => .loopNode (dandelion.LoopNode.new _nf _hnode _lnode)
  | .InstructionNode _ni _ins_t _ins =>
    .instructionNode (dandelion.InstructionNode.new _ni _ins_t _ins)
  | .BinaryOperatorNode _ni _ins => .binaryOperatorNode (dandelion.BinaryOperatorNode.new _ni _ins)
  | .IcmpNode _ni _ins => .icmpNode (dandelion.IcmpNode.new _ni _ins)
  | .BranchNode _ni _ins => .branchNode (dandelion.BranchNode.new _ni _ins)
  | .PhiSelectNode _ni _ins _parent => .phiSelectNode (dandelion.PhiSelectNode.new _ni _ins _parent)
  | .AllocaNode _ni _ins => .allocaNode (dandelion.AllocaNode.new _ni _ins)
  | .GEPNode _ni _ins => .gepNode (dandelion.GEPNode.new _ni _ins)
  | .LoadNode _ni _ins _node => .loadNode (dandelion.LoadNode.new _ni _ins _node)
  | .StoreNode _ni _ins _mem => .storeNode (dandelion.StoreNode.new _ni _ins _mem)
  | .ReturnNode _ni _ins _nd => .returnNode (dandelion.ReturnNode.new _ni _ins _nd)
  | .CallNode _ni _ins _nd => .callNode (dandelion.CallNode.new _ni _ins _nd)
  | .ArgumentNode _ni _arg => .argumentNode (dandelion.ArgumentNode.new _ni _arg)
  | .GlobalValueNode _ni _glb => .globalValueNode (dandelion.GlobalValueNode.new _ni _glb)
  | .ConstIntNode _ni _cint => .constIntNode (dandelion.ConstIntNode.new _ni _cint)
  | .SplitCallNode _nf => .splitCallNode (dandelion.SplitCallNode.new _nf)

/-- The call is a call of the constructor of the base class `Node` itself. -/
def CtorCall.isNodeCtor : CtorCall → Bool
  | .Node _ _ => true
  | _ => false

/-- The closed set of node kinds as the specification lists it: SuperNode, LoopNode,
Instruction, FunctionArgument, GlobalValue, ConstantInt, MemoryUnit, SplitCall. -/
def closedKinds : List NodeType :=
  [.SuperNodeTy, .LoopNodeTy, .InstructionNodeTy, .FunctionArgTy, .GlobalValueTy,
    .ConstIntTy, .MemoryUnitTy, .SplitCallTy]

/-- The value `getType()` reports is the value of one of the eight kinds of the closed
set. -/
def Node.hasClosedKind (this : Node) : Prop :=
  ∃ k ∈ closedKinds, this.getType = k.toNat

instance (this : Node) : Decidable this.hasClosedKind :=
  inferInstanceAs (Decidable (∃ k ∈ closedKinds, this.getType = k.toNat))

/-! ## Edges (`Edge.h`) -/

/-- The enum `Edge::EdgeType`. -/
inductive EdgeType where
  | DataTypeEdge
  | ControlTypeEdge
  | DataToControlTypeEdge
  | ControlToDataTypeEdge
  | MaskTypeEdge
  | MemoryReadTypeEdge
  | MemoryWriteTypeEdge
  | MemoryToDataTypeEdge
  | MemoryToControlTypeEdge
  | UknownType
  deriving DecidableEq, Repr

/-- The integer value of an `EdgeType` enumerator (`DataTypeEdge = 0`, then counting up). -/
def EdgeType.toNat : EdgeType → Nat
  | .DataTypeEdge => 0
  | .ControlTypeEdge => 1
  | .DataToControlTypeEdge => 2
  | .ControlToDataTypeEdge => 3
  | .MaskTypeEdge => 4
  | .MemoryReadTypeEdge => 5
  | .MemoryWriteTypeEdge => 6
  | .MemoryToDataTypeEdge => 7
  | .MemoryToControlTypeEdge => 8
  | .UknownType => 9

/-- The class `Edge`. Each member is left uninitialised by one of the constructors. -/
structure Edge where
  edge_type : Option EdgeType
  src : Option Ptr
  tar : Option Ptr
  deriving DecidableEq, Repr

/-- The constructor `Edge(EdgeType _ty) : edge_type(_ty)`; `src` and `tar` are left
uninitialised. -/
def Edge.new_ty (_ty : EdgeType) : Edge :=
  { edge_type := some _ty, src := none, tar := none }

/-- The constructor `Edge(Node *_src = nullptr, Node *_tar = nullptr) : src(_src), tar(_tar)`;
`edge_type` is left uninitialised. -/
def Edge.new_src_tar (_src _tar : Ptr) : Edge :=
  { edge_type := none, src := some _src, tar := some _tar }

/-- The constructor
`Edge(EdgeType _ty = UknownType, Node *_src = nullptr, Node *_tar = nullptr)
  : edge_type(_ty), src(_src), tar(_tar)`. -/
def Edge.new (_ty : EdgeType) (_src _tar : Ptr) : Edge :=
  { edge_type := some _ty, src := some _src, tar := some _tar }

/-- Member `uint32_t getType() const`; `none` when `edge_type` is indeterminate. -/
def Edge.getType (this : Edge) : Option Nat :=
  this.edge_type.map (fun t => t.toNat % 2 ^ 32)

/-- Member `Node *getSrc()`; `none` when `src` is indeterminate. -/
def Edge.getSrc (this : Edge) : Option Ptr := this.src

/-- Member `Node *getTar()`; `none` when `tar` is indeterminate. -/
def Edge.getTar (this : Edge) : Option Ptr := this.tar

/-- The nine edge kinds as the specification lists them: Data, Control, DataToControl,
ControlToData, Mask, MemoryRead, MemoryWrite, MemoryToData, MemoryToControl. -/
def nineEdgeKinds : List EdgeType :=
  [.DataTypeEdge, .ControlTypeEdge, .DataToControlTypeEdge, .ControlToDataTypeEdge,
    .MaskTypeEdge, .MemoryReadTypeEdge, .MemoryWriteTypeEdge, .MemoryToDataTypeEdge,
    .MemoryToControlTypeEdge]

/-- The value `getType()` reports is the value of one of the nine edge kinds. -/
def Edge.hasListedKind (this : Edge) : Prop :=
  ∃ k ∈ nineEdgeKinds, this.getType = some k.toNat

instance (this : Edge) : Decidable this.hasListedKind :=
  inferInstanceAs (Decidable (∃ k ∈ nineEdgeKinds, this.getType = some k.toNat))

/-! # Theorems -/

/-! ## Enumerator values -/

theorem nodeType_toNat_lt (k : NodeType) : k.toNat < 2 ^ 32 := by
  cases k <;> decide

theorem nodeType_toNat_inj (a b : NodeType) : a.toNat = b.toNat ↔ a = b := by
  cases a <;> cases b <;> decide

theorem instType_toNat_lt (t : InstType) : t.toNat < 2 ^ 32 := by
  cases t <;> decide

theorem instType_toNat_inj (a b : InstType) : a.toNat = b.toNat ↔ a = b := by
  cases a <;> cases b <;> decide

theorem Node.getType_eq (n : Node) : n.getType = n.node_type.toNat := by
  unfold Node.getType
  exact Nat.mod_eq_of_lt (nodeType_toNat_lt _)

theorem Node.getType_eq_iff (n : Node) (k : NodeType) :
    n.getType = k.toNat ↔ n.node_type = k := by
  rw [Node.getType_eq, nodeType_toNat_inj]

theorem InstructionNode.getOpCode_eq (i : InstructionNode) :
    i.getOpCode = i.ins_type.toNat := by
  unfold InstructionNode.getOpCode
  exact Nat.mod_eq_of_lt (instType_toNat_lt _)

theorem InstructionNode.getOpCode_eq_iff (i : InstructionNode) (t : InstType) :
    i.getOpCode = t.toNat ↔ i.ins_type = t := by
  rw [InstructionNode.getOpCode_eq, instType_toNat_inj]

/-! ## `classof` -/

theorem isa_InstructionNode_iff (n : Object) :
    isa_InstructionNode n = true ↔ n.toNode.node_type = NodeType.InstructionNodeTy := by
  simp [isa_InstructionNode, InstructionNode.classof, Node.getType_eq_iff]

theorem Variant.classof_eq (V : Variant) (n : Object) :
    V.classof n =
      if n.toNode.getType = NodeType.InstructionNodeTy.toNat then
        n.getOpCode?.map (fun c => decide (c = V.tag.toNat))
      else some false := by
  by_cases hk : n.toNode.getType = NodeType.InstructionNodeTy.toNat <;>
    cases hi : n.toInstructionNode? <;>
    cases V <;>
    simp [Variant.classof, Variant.tag, BinaryOperatorNode.classof, IcmpNode.classof,
      BranchNode.classof, PhiSelectNode.classof, AllocaNode.classof, GEPNode.classof,
      LoadNode.classof, StoreNode.classof, ReturnNode.classof, CallNode.classof,
      BinaryOperatorNode.classofInst, IcmpNode.classofInst,
      BranchNode.classofInst, PhiSelectNode.classofInst, AllocaNode.classofInst,
      GEPNode.classofInst, LoadNode.classofInst, StoreNode.classofInst,
      ReturnNode.classofInst, CallNode.classofInst, cast_InstructionNode,
      isa_InstructionNode, InstructionNode.classof, Object.getOpCode?, hk, hi] <;>
    exact Bool.eq_iff_iff.mpr (by simp)

/-- C1: for each of the ten instruction variants `V` and every object `n` behind a
`Node *`, `V::classof(n)` is true exactly when the kind of `n` is `InstructionNodeTy` and the
`InstType` tag of `n` is the tag of `V`; its result is a function of `getType()` and
`getOpCode()` alone, and for a kind other than `InstructionNodeTy` it is false although
the cast of `n` to `InstructionNode` would fail. -/
theorem variant_classof_iff_kind_and_tag (V : Variant) (n : Object) :
    (V.classof n = some true ↔
        n.toNode.node_type = NodeType.InstructionNodeTy ∧
          n.toInstructionNode?.map (fun i => i.ins_type) = some V.tag) ∧
      V.classof n =
        (if n.toNode.getType = NodeType.InstructionNodeTy.toNat then
          n.getOpCode?.map (fun c => decide (c = V.tag.toNat))
        else some false) ∧
      (n.toNode.getType = NodeType.InstructionNodeTy.toNat ∨
        (V.classof n = some false ∧ cast_InstructionNode n = none)) := by
  refine ⟨?_, Variant.classof_eq V n, ?_⟩
  · rw [Variant.classof_eq]
    by_cases hk : n.toNode.node_type = NodeType.InstructionNodeTy
    · have hg := (Node.getType_eq_iff n.toNode _).mpr hk
      cases hi : n.toInstructionNode? with
      | none => simp [hk, hg, hi, Object.getOpCode?]
      | some i => simp [hk, hg, hi, Object.getOpCode?, InstructionNode.getOpCode_eq_iff]
    · have hg : ¬ n.toNode.getType = NodeType.InstructionNodeTy.toNat :=
        fun h => hk ((Node.getType_eq_iff n.toNode _).mp h)
      simp [hk, hg]
  · by_cases hk : n.toNode.getType = NodeType.InstructionNodeTy.toNat
    · exact Or.inl hk
    · refine Or.inr ⟨by rw [Variant.classof_eq]; simp [hk], ?_⟩
      simp [cast_InstructionNode, isa_InstructionNode, InstructionNode.classof, hk]

/-- C2: `SuperNode::classof`, `LoopNode::classof`, `MemoryNode::classof` and
`InstructionNode::classof` are true exactly on the kind of their own class, whereas
`SplitCallNode::classof` is true exactly on the kind `SuperNodeTy`: it is false on the node
that the `SplitCallNode` constructor builds and true on the node that the `SuperNode`
constructor builds. -/
theorem kind_classof_compares_kind (n : Node) (_nf : NodeInfo) (_bb : Ptr) :
    (SuperNode.classof n = true ↔ n.node_type = NodeType.SuperNodeTy) ∧
      (LoopNode.classof n = true ↔ n.node_type = NodeType.LoopNodeTy) ∧
      (MemoryNode.classof n = true ↔ n.node_type = NodeType.MemoryUnitTy) ∧
      (InstructionNode.classof n = true ↔ n.node_type = NodeType.InstructionNodeTy) ∧
      (SplitCallNode.classof n = true ↔ n.node_type = NodeType.SuperNodeTy) ∧
      (SplitCallNode.new _nf).toNode.getType = NodeType.SplitCallTy.toNat ∧
      SplitCallNode.classof (SplitCallNode.new _nf).toNode = false ∧
      SplitCallNode.classof (SuperNode.new _nf _bb).toNode = true := by
  simp [SuperNode.classof, LoopNode.classof, MemoryNode.classof, InstructionNode.classof,
    SplitCallNode.classof, Node.getType_eq_iff, SplitCallNode.new, SuperNode.new, Node.new]

theorem Variant.tag_inj (V W : Variant) : V.tag = W.tag ↔ V = W := by
  cases V <;> cases W <;> decide

theorem Variant.construct_toNode (V : Variant) (_ni : NodeInfo) (_ins _aux : Ptr)
    (_nd : NodeType) :
    (V.construct _ni _ins _aux _nd).toNode = Node.new NodeType.InstructionNodeTy _ni := by
  cases V <;> rfl

theorem Variant.construct_toInstructionNode (V : Variant) (_ni : NodeInfo) (_ins _aux : Ptr)
    (_nd : NodeType) :
    (V.construct _ni _ins _aux _nd).toInstructionNode? =
      some (InstructionNode.new _ni V.tag _ins) := by
  cases V <;> rfl

/-- C3: the node built by the constructor of an instruction variant `V`, for every
`NodeInfo`, parent instruction and further argument, has kind `InstructionNodeTy` and
the tag of `V`, so `InstructionNode::classof` holds of it, `V::classof` holds of it, and
`W::classof` fails for each other variant `W`; the tags of the ten variants are pairwise
distinct. -/
theorem variant_constructor_fixes_kind_and_tag (V W : Variant) (_ni : NodeInfo)
    (_ins _aux : Ptr) (_nd : NodeType) :
    (V.construct _ni _ins _aux _nd).toNode.getType = NodeType.InstructionNodeTy.toNat ∧
      (V.construct _ni _ins _aux _nd).getOpCode? = some V.tag.toNat ∧
      InstructionNode.classof (V.construct _ni _ins _aux _nd).toNode = true ∧
      V.classof (V.construct _ni _ins _aux _nd) = some true ∧
      W.classof (V.construct _ni _ins _aux _nd) = some (decide (W = V)) ∧
      (V.tag = W.tag ↔ V = W) := by
  have hk : (V.construct _ni _ins _aux _nd).toNode.getType =
      NodeType.InstructionNodeTy.toNat := by
    rw [Variant.construct_toNode]; rfl
  have ho : (V.construct _ni _ins _aux _nd).getOpCode? = some V.tag.toNat := by
    simp [Object.getOpCode?, Variant.construct_toInstructionNode,
      InstructionNode.getOpCode_eq, InstructionNode.new]
  have hw : ∀ U : Variant, U.classof (V.construct _ni _ins _aux _nd) =
      some (decide (U = V)) := by
    intro U
    rw [Variant.classof_eq, if_pos hk, ho]
    simp only [Option.map_some', Option.some.injEq]
    exact Bool.eq_iff_iff.mpr (by simp [instType_toNat_inj, Variant.tag_inj, eq_comm])
  refine ⟨hk, ho, ?_, ?_, hw W, Variant.tag_inj V W⟩
  · simp [InstructionNode.classof, hk]
  · simpa using hw V

/-! ## Emission fallbacks -/

theorem Class.overridesNone_iff (c : Class) :
    c.overridesNone = true ↔ c = Class.Node ∨ c = Class.GlobalValueNode := by
  cases c <;> decide

/-- C4: on an object of a class that overrides none of the emission methods, for
every `PrintType` and port index, each of the nine emission calls returns a string and
leaves the object as it was: `printDefinition` returns the name followed by
"Not defined!", `printOutputEnable` without an index the name followed by " Not defined!",
and the other seven return "Not defined!". -/
theorem base_node_emission_not_defined (ext : ExternalBodies) (o : Object) (pt : PrintType)
    (idx : Nat) (h : o.cls.overridesNone = true) :
    o.emit ext Method.printDefinition pt idx = (o.toNode.getName ++ "Not defined!", o) ∧
      o.emit ext Method.printInputEnable_idx pt idx = ("Not defined!", o) ∧
      o.emit ext Method.printInputEnable pt idx = ("Not defined!", o) ∧
      o.emit ext Method.printOutputEnable pt idx = (o.toNode.getName ++ " Not defined!", o) ∧
      o.emit ext Method.printOutputEnable_idx pt idx = ("Not defined!", o) ∧
      o.emit ext Method.printInputData pt idx = ("Not defined!", o) ∧
      o.emit ext Method.printInputData_idx pt idx = ("Not defined!", o) ∧
      o.emit ext Method.printOutputData pt idx = ("Not defined!", o) ∧
      o.emit ext Method.printOutputData_idx pt idx = ("Not defined!", o) := by
  cases o with
  | node x => exact ⟨rfl, rfl, rfl, rfl, rfl, rfl, rfl, rfl, rfl⟩
  | globalValueNode x => exact ⟨rfl, rfl, rfl, rfl, rfl, rfl, rfl, rfl, rfl⟩
  | _ => simp [Object.cls, Class.overridesNone_iff] at h

theorem base_node_emission_not_defined_witness :
    (Object.node (Node.new NodeType.UnkonwTy (NodeInfo.new 3 "n"))).cls.overridesNone = true ∧
      (Object.node (Node.new NodeType.UnkonwTy (NodeInfo.new 3 "n"))).emit
          (fun _ _ o _ _ => ("", o)) Method.printDefinition PrintType.Dot 0 =
        ("nNot defined!", Object.node (Node.new NodeType.UnkonwTy (NodeInfo.new 3 "n"))) :=
  ⟨by decide,
    (base_node_emission_not_defined (fun _ _ o _ _ => ("", o))
      (Object.node (Node.new NodeType.UnkonwTy (NodeInfo.new 3 "n"))) PrintType.Dot 0
      (by decide)).1⟩

/-! ## Loops -/

theorem LoopNode.run_fields (x : LoopNode) (ops : List LoopNode.Op) :
    (x.run ops).head_node =
        ((ops.filterMap LoopNode.Op.headArg?).getLast?).getD x.head_node ∧
      (x.run ops).latch_node =
        ((ops.filterMap LoopNode.Op.latchArg?).getLast?).getD x.latch_node ∧
      (x.run ops).basic_block_list = x.basic_block_list ∧
      (x.run ops).instruction_list = x.instruction_list ∧
      (x.run ops).toNode = x.toNode := by
  induction ops generalizing x with
  | nil => simp [LoopNode.run]
  | cons op ops ih =>
    have h := ih (x.step op)
    simp only [LoopNode.run, List.foldl_cons] at h ⊢
    obtain ⟨h1, h2, h3, h4, h5⟩ := h
    rw [h1, h2, h3, h4, h5]
    cases op <;>
      simp [LoopNode.step, LoopNode.setHeadNode, LoopNode.setLatchNode,
        LoopNode.Op.headArg?, LoopNode.Op.latchArg?, List.getLast?_cons]

/-- C5, counterexample: the loop built with head `1` and latch `2` has a head, and
neither its head nor its latch is in the list that `bblocks()` exposes. -/
theorem loop_head_latch_not_members :
    ¬ ((LoopNode.new (NodeInfo.new 0 "loop") (Ptr.addr 1)
        (Ptr.addr 2)).run []).headAndLatchAreMembers := by
  decide

/-- C5, amended: in every state reachable from the constructor through `setHeadNode`
and `setLatchNode`, the loop holds one head reference and one latch reference, each the
argument of the last call of its setter (the constructor argument when there was no
call), and the list that `bblocks()` exposes is empty, as the constructor left it; the
instruction list and the `Node` members also are as constructed. -/
theorem loop_head_latch_last_set (_nf : NodeInfo) (_hnode _lnode : Ptr)
    (ops : List LoopNode.Op) :
    ((LoopNode.new _nf _hnode _lnode).run ops).head_node =
        ((ops.filterMap LoopNode.Op.headArg?).getLast?).getD _hnode ∧
      ((LoopNode.new _nf _hnode _lnode).run ops).latch_node =
        ((ops.filterMap LoopNode.Op.latchArg?).getLast?).getD _lnode ∧
      ((LoopNode.new _nf _hnode _lnode).run ops).bblocks = [] ∧
      ((LoopNode.new _nf _hnode _lnode).run ops).instruction_list = [] ∧
      ((LoopNode.new _nf _hnode _lnode).run ops).toNode =
        Node.new NodeType.LoopNodeTy _nf := by
  have h := LoopNode.run_fields (LoopNode.new _nf _hnode _lnode) ops
  exact ⟨h.1, h.2.1, h.2.2.1, h.2.2.2.1, h.2.2.2.2⟩

/-! ## The kind tag -/

theorem SuperNode.run_toNode (x : SuperNode) (ops : List SuperNode.Op) :
    (x.run ops).toNode = x.toNode := by
  induction ops generalizing x with
  | nil => rfl
  | cons op ops ih =>
    have h := ih (x.step op)
    simp only [SuperNode.run, List.foldl_cons] at h ⊢
    rw [h]
    cases op <;> rfl

theorem loadNode_run_toInstructionNode (x : LoadNode) (ops : List Ptr) :
    (x.run ops).toInstructionNode = x.toInstructionNode := by
  induction ops generalizing x with
  | nil => rfl
  | cons op ops ih =>
    have h := ih (x.setMemoryUnit op)
    simp only [LoadNode.run, List.foldl_cons] at h ⊢
    rw [h]
    rfl

theorem phiSelectNode_run_toInstructionNode (x : PhiSelectNode) (ops : List Ptr) :
    (x.run ops).toInstructionNode = x.toInstructionNode := by
  induction ops generalizing x with
  | nil => rfl
  | cons op ops ih =>
    have h := ih (x.setParentNode op)
    simp only [PhiSelectNode.run, List.foldl_cons] at h ⊢
    rw [h]
    rfl

/-- C7: each constructor sets `getType()` to the kind of its class, and `getType()`,
`getID()` and `getName()` return the same values after any sequence of the mutators that
the header defines: `setNodeType` and `setActivateInput` on a `SuperNode`, `setHeadNode`
and `setLatchNode` on a `LoopNode`, `setMemoryUnit` on a `LoadNode`, `setParentNode` on a
`PhiSelectNode`. -/
theorem kind_fixed_at_construction (_nf : NodeInfo) (_p _q : Ptr) (_nd : NodeType)
    (_ins_t : InstType) (V : Variant)
    (s : SuperNode) (sops : List SuperNode.Op) (l : LoopNode) (lops : List LoopNode.Op)
    (ld : LoadNode) (ldops : List Ptr) (ph : PhiSelectNode) (phops : List Ptr) :
    ((SuperNode.new _nf _p).toNode.getType = NodeType.SuperNodeTy.toNat ∧
        (LoopNode.new _nf _p _q).toNode.getType = NodeType.LoopNodeTy.toNat ∧
        (MemoryNode.new _nf).toNode.getType = NodeType.MemoryUnitTy.toNat ∧
        (V.construct _nf _p _q _nd).toNode.getType = NodeType.InstructionNodeTy.toNat ∧
        (InstructionNode.new _nf _ins_t _p).toNode.getType =
          NodeType.InstructionNodeTy.toNat ∧
        (ArgumentNode.new _nf _p).toNode.getType = NodeType.FunctionArgTy.toNat ∧
        (GlobalValueNode.new _nf _p).toNode.getType = NodeType.GlobalValueTy.toNat ∧
        (ConstIntNode.new _nf _p).toNode.getType = NodeType.ConstIntTy.toNat ∧
        (SplitCallNode.new _nf).toNode.getType = NodeType.SplitCallTy.toNat) ∧
      ((s.run sops).toNode.getType = s.toNode.getType ∧
        (s.run sops).toNode.getID = s.toNode.getID ∧
        (s.run sops).toNode.getName = s.toNode.getName) ∧
      ((l.run lops).toNode.getType = l.toNode.getType ∧
        (l.run lops).toNode.getID = l.toNode.getID ∧
        (l.run lops).toNode.getName = l.toNode.getName) ∧
      ((ld.run ldops).toNode.getType = ld.toNode.getType ∧
        (ld.run ldops).toNode.getID = ld.toNode.getID ∧
        (ld.run ldops).toNode.getName = ld.toNode.getName) ∧
      ((ph.run phops).toNode.getType = ph.toNode.getType ∧
        (ph.run phops).toNode.getID = ph.toNode.getID ∧
        (ph.run phops).toNode.getName = ph.toNode.getName) := by
  refine ⟨⟨rfl, rfl, rfl, ?_, rfl, rfl, rfl, rfl, rfl⟩, ?_, ?_, ?_, ?_⟩
  · rw [Variant.construct_toNode]; rfl
  · rw [SuperNode.run_toNode]; exact ⟨rfl, rfl, rfl⟩
  · rw [(LoopNode.run_fields l lops).2.2.2.2]; exact ⟨rfl, rfl, rfl⟩
  · rw [loadNode_run_toInstructionNode]; exact ⟨rfl, rfl, rfl⟩
  · rw [phiSelectNode_run_toInstructionNode]; exact ⟨rfl, rfl, rfl⟩

/-- C8, counterexample: the node built by the public constructor of `Node` with the
enumerator `UnkonwTy` reports the value 8, which is none of the eight kinds of the closed
set. -/
theorem node_constructor_accepts_unknown_kind :
    (CtorCall.Node NodeType.UnkonwTy (NodeInfo.new 0 "n")).build.toNode.getType = 8 ∧
      ¬ (CtorCall.Node NodeType.UnkonwTy (NodeInfo.new 0 "n")).build.toNode.hasClosedKind := by
  decide

theorem Node.hasClosedKind_iff (n : Node) :
    n.hasClosedKind ↔ n.node_type ≠ NodeType.UnkonwTy := by
  unfold Node.hasClosedKind
  simp only [Node.getType_eq_iff, exists_eq_right']
  cases n.node_type <;> decide

/-- C8, amended: every node built by a constructor of a subclass of `Node` reports one
of the eight kinds of the closed set; a node built by the public constructor of `Node`
itself reports the `NodeType` it was given, which is one of the eight kinds exactly when
it is not the ninth enumerator `UnkonwTy`. -/
theorem constructed_kind_closed_or_given (c : CtorCall) (_nt : NodeType) (_ni : NodeInfo) :
    (c.isNodeCtor = true ∨ c.build.toNode.hasClosedKind) ∧
      (CtorCall.Node _nt _ni).build.toNode.getType = _nt.toNat ∧
      ((CtorCall.Node _nt _ni).build.toNode.hasClosedKind ↔ _nt ≠ NodeType.UnkonwTy) := by
  refine ⟨?_, Node.getType_eq _, Node.hasClosedKind_iff _⟩
  cases c <;> first
    | exact Or.inl rfl
    | exact Or.inr ((Node.hasClosedKind_iff _).mpr (by
        simp [CtorCall.build, Object.toNode, SuperNode.new, MemoryNode.new, LoopNode.new,
          InstructionNode.new, BinaryOperatorNode.new, IcmpNode.new, BranchNode.new,
          PhiSelectNode.new, AllocaNode.new, GEPNode.new, LoadNode.new, StoreNode.new,
          ReturnNode.new, CallNode.new, ArgumentNode.new, GlobalValueNode.new,
          ConstIntNode.new, SplitCallNode.new, Node.new]))

/-! ## Edges -/

theorem edgeType_toNat_lt (k : EdgeType) : k.toNat < 2 ^ 32 := by
  cases k <;> decide

theorem edgeType_toNat_inj (a b : EdgeType) : a.toNat = b.toNat ↔ a = b := by
  cases a <;> cases b <;> decide

/-- C9, counterexample: the edge `Edge(UknownType, nullptr, nullptr)`, built by the
three-argument constructor with each argument at its default value, reports the value 9,
which is none of the nine listed kinds. -/
theorem edge_default_kind_is_unknown :
    (Edge.new EdgeType.UknownType Ptr.null Ptr.null).getType = some 9 ∧
      ¬ (Edge.new EdgeType.UknownType Ptr.null Ptr.null).hasListedKind := by
  decide

/-- C9, amended: for every kind `k` and endpoints `s`, `t`, the edge built as
`Edge(k, s, t)` reports `getType() = k`, `getSrc() = s` and `getTar() = t`, and `getType()`
is one of the nine listed kinds exactly when `k` is not the tenth enumerator
`UknownType`, the default of the kind argument. -/
theorem edge_reports_its_arguments (k : EdgeType) (s t : Ptr) :
    (Edge.new k s t).getType = some k.toNat ∧
      (Edge.new k s t).getSrc = some s ∧
      (Edge.new k s t).getTar = some t ∧
      ((Edge.new k s t).hasListedKind ↔ k ≠ EdgeType.UknownType) := by
  have hg : (Edge.new k s t).getType = some k.toNat := by
    have hlt := Nat.mod_eq_of_lt (edgeType_toNat_lt k)
    simp only [Edge.getType, Edge.new, Option.map_some', hlt]
  refine ⟨hg, rfl, rfl, ?_⟩
  unfold Edge.hasListedKind
  rw [hg]
  simp only [Option.some.injEq, edgeType_toNat_inj, exists_eq_right']
  cases k <;> decide

/-! ## Port lists -/

/-- C11: the constructor of `PhiSelectNode` does not store its parent argument: for
every `NodeInfo`, parent instruction and parent `p`, `mask_node` of the constructed node
is uninitialised, so `getMaskNode()` is indeterminate and not `p`. After
`setParentNode(q)`, `getMaskNode()` is `q`, and the kind and the tag
`PhiInstructionTy`, the id and the name are those of the node before the call. -/
theorem phi_constructor_leaves_mask_unset (_ni : NodeInfo) (_ins p q : Ptr)
    (x : PhiSelectNode) :
    (PhiSelectNode.new _ni _ins p).getMaskNode = none ∧
      (PhiSelectNode.new _ni _ins p).getMaskNode ≠ some p ∧
      (PhiSelectNode.new _ni _ins p).getMaskNode =
        (PhiSelectNode.new _ni _ins Ptr.null).getMaskNode ∧
      ((PhiSelectNode.new _ni _ins p).setParentNode q).getMaskNode = some q ∧
      (x.setParentNode q).getMaskNode = some q ∧
      (x.setParentNode q).toInstructionNode = x.toInstructionNode ∧
      (x.setParentNode q).toNode.getType = x.toNode.getType ∧
      (x.setParentNode q).getOpCode = x.getOpCode ∧
      (PhiSelectNode.new _ni _ins p).toNode.getType = NodeType.InstructionNodeTy.toNat ∧
      (PhiSelectNode.new _ni _ins p).getOpCode = InstType.PhiInstructionTy.toNat := by
  refine ⟨rfl, ?_, rfl, rfl, rfl, rfl, rfl, rfl, rfl, rfl⟩
  simp [PhiSelectNode.getMaskNode, PhiSelectNode.new]

/-! ## Basic blocks -/

/-- C12: a freshly constructed `SuperNode` has classification `NoMask`, a null
activation input and an empty phi list (`hasPhi()` is false, `getNumPhi()` is 0);
`setNodeType(t)` makes `getNodeType()` return `t` and `setActivateInput(a)` makes
`getActivateNode()` return `a`; each setter leaves the other of the two fields, the
instruction list, the phi list, the basic block and the `Node` members as they were. -/
theorem super_node_fresh_and_setters (_nf : NodeInfo) (_bb a : Ptr) (t : SuperNodeType)
    (s : SuperNode) :
    ((SuperNode.new _nf _bb).getNodeType = SuperNodeType.NoMask ∧
        (SuperNode.new _nf _bb).getActivateNode = Ptr.null ∧
        (SuperNode.new _nf _bb).hasPhi = false ∧
        (SuperNode.new _nf _bb).getNumPhi = 0 ∧
        (SuperNode.new _nf _bb).basic_block = _bb) ∧
      ((s.setNodeType t).getNodeType = t ∧
        (s.setNodeType t).getActivateNode = s.getActivateNode ∧
        (s.setNodeType t).instruction_list = s.instruction_list ∧
        (s.setNodeType t).phi_list = s.phi_list ∧
        (s.setNodeType t).hasPhi = s.hasPhi ∧
        (s.setNodeType t).getNumPhi = s.getNumPhi ∧
        (s.setNodeType t).basic_block = s.basic_block ∧
        (s.setNodeType t).toNode = s.toNode) ∧
      ((s.setActivateInput a).getActivateNode = a ∧
        (s.setActivateInput a).getNodeType = s.getNodeType ∧
        (s.setActivateInput a).instruction_list = s.instruction_list ∧
        (s.setActivateInput a).phi_list = s.phi_list ∧
        (s.setActivateInput a).hasPhi = s.hasPhi ∧
        (s.setActivateInput a).getNumPhi = s.getNumPhi ∧
        (s.setActivateInput a).basic_block = s.basic_block ∧
        (s.setActivateInput a).toNode = s.toNode) :=
  ⟨⟨rfl, rfl, rfl, rfl, rfl⟩, ⟨rfl, rfl, rfl, rfl, rfl, rfl, rfl, rfl⟩,
    ⟨rfl, rfl, rfl, rfl, rfl, rfl, rfl, rfl⟩⟩

/-! ## The instruction fallback of `printDefinition` -/

theorem finalOverrider_printDefinition_instruction (k : Class) :
    k.finalOverrider Method.printDefinition = Class.InstructionNode ↔
      k = Class.InstructionNode ∨ k = Class.AllocaNode ∨ k = Class.CallNode := by
  cases k <;> decide

/-- C13: on a plain `InstructionNode` of any tag, on an `AllocaNode` and on a `CallNode`
(the classes whose `printDefinition` is the one of `InstructionNode`), for every
`PrintType`, `printDefinition` returns exactly "Not defined instructions\n", without the
name, whereas the body of `Node` would return the name followed by "Not defined!"; the
other eight emission methods return the fallbacks of `Node`; the object is unchanged. -/
theorem instruction_fallback_print_definition (ext : ExternalBodies) (i : InstructionNode)
    (a : AllocaNode) (c : CallNode) (pt : PrintType) (idx : Nat) (k : Class) :
      ((Object.instructionNode i).emit ext Method.printDefinition pt idx = ("Not defined instructions\n", (Object.instructionNode i)) ∧
       (Object.instructionNode i).emit ext Method.printInputEnable_idx pt idx = ("Not defined!", (Object.instructionNode i)) ∧
       (Object.instructionNode i).emit ext Method.printInputEnable pt idx = ("Not defined!", (Object.instructionNode i)) ∧
       (Object.instructionNode i).emit ext Method.printOutputEnable pt idx = ((Object.instructionNode i).toNode.getName ++ " Not defined!", (Object.instructionNode i)) ∧
       (Object.instructionNode i).emit ext Method.printOutputEnable_idx pt idx = ("Not defined!", (Object.instructionNode i)) ∧
       (Object.instructionNode i).emit ext Method.printInputData pt idx = ("Not defined!", (Object.instructionNode i)) ∧
       (Object.instructionNode i).emit ext Method.printInputData_idx pt idx = ("Not defined!", (Object.instructionNode i)) ∧
       (Object.instructionNode i).emit ext Method.printOutputData pt idx = ("Not defined!", (Object.instructionNode i)) ∧
       (Object.instructionNode i).emit ext Method.printOutputData_idx pt idx = ("Not defined!", (Object.instructionNode i))) ∧
      ((Object.allocaNode a).emit ext Method.printDefinition pt idx = ("Not defined instructions\n", (Object.allocaNode a)) ∧
       (Object.allocaNode a).emit ext Method.printInputEnable_idx pt idx = ("Not defined!", (Object.allocaNode a)) ∧
       (Object.allocaNode a).emit ext Method.printInputEnable pt idx = ("Not defined!", (Object.allocaNode a)) ∧
       (Object.allocaNode a).emit ext Method.printOutputEnable pt idx = ((Object.allocaNode a).toNode.getName ++ " Not defined!", (Object.allocaNode a)) ∧
       (Object.allocaNode a).emit ext Method.printOutputEnable_idx pt idx = ("Not defined!", (Object.allocaNode a)) ∧
       (Object.allocaNode a).emit ext Method.printInputData pt idx = ("Not defined!", (Object.allocaNode a)) ∧
       (Object.allocaNode a).emit ext Method.printInputData_idx pt idx = ("Not defined!", (Object.allocaNode a)) ∧
       (Object.allocaNode a).emit ext Method.printOutputData pt idx = ("Not defined!", (Object.allocaNode a)) ∧
       (Object.allocaNode a).emit ext Method.printOutputData_idx pt idx = ("Not defined!", (Object.allocaNode a))) ∧
      ((Object.callNode c).emit ext Method.printDefinition pt idx = ("Not defined instructions\n", (Object.callNode c)) ∧
       (Object.callNode c).emit ext Method.printInputEnable_idx pt idx = ("Not defined!", (Object.callNode c)) ∧
       (Object.callNode c).emit ext Method.printInputEnable pt idx = ("Not defined!", (Object.callNode c)) ∧
       (Object.callNode c).emit ext Method.printOutputEnable pt idx = ((Object.callNode c).toNode.getName ++ " Not defined!", (Object.callNode c)) ∧
       (Object.callNode c).emit ext Method.printOutputEnable_idx pt idx = ("Not defined!", (Object.callNode c)) ∧
       (Object.callNode c).emit ext Method.printInputData pt idx = ("Not defined!", (Object.callNode c)) ∧
       (Object.callNode c).emit ext Method.printInputData_idx pt idx = ("Not defined!", (Object.callNode c)) ∧
       (Object.callNode c).emit ext Method.printOutputData pt idx = ("Not defined!", (Object.callNode c)) ∧
       (Object.callNode c).emit ext Method.printOutputData_idx pt idx = ("Not defined!", (Object.callNode c))) ∧
      ((i.toNode.printDefinition pt).1 = i.toNode.getName ++ "Not defined!" ∧
        (k.finalOverrider Method.printDefinition = Class.InstructionNode ↔
          k = Class.InstructionNode ∨ k = Class.AllocaNode ∨ k = Class.CallNode)) :=
  ⟨⟨rfl, rfl, rfl, rfl, rfl, rfl, rfl, rfl, rfl⟩, ⟨rfl, rfl, rfl, rfl, rfl, rfl, rfl, rfl, rfl⟩,
    ⟨rfl, rfl, rfl, rfl, rfl, rfl, rfl, rfl, rfl⟩,
    ⟨rfl, finalOverrider_printDefinition_instruction k⟩⟩

end dandelion
